import Mathlib

/-!
# GazeTracker — shallow embedding and verification

A shallow embedding of the core gaze-estimation pipeline of the GazeTracker
repository, together with theorems settling the specification's claims about
it.  Floating-point numbers are modelled by exact rationals (`ℚ`); a value
that can be non-finite in JavaScript (NaN / ±∞) is modelled by `Option ℚ`
with `none` standing for the non-finite case.  Wall-clock timestamps
(`System.currentTimeMillis`, `System.nanoTime`) are environment-supplied and
are omitted from the data model; no claim mentions them.

Embedded sources:
* `src/src/CalibrationScreen.tsx` — `calculateLinearTransform`,
  `completeCalibration`;
* `src/src/CalibrationService.ts` — `isCalibrated`, `applyCalibratedGaze`;
* `src/android/app/src/main/java/com/gazetracker/TensorFlowProcessor.kt` —
  `processBlazeFaceDetections`, `createNoFaceResult`,
  `detectIrisInEyeRegion`, `calculateNormalizedGaze`, `processFrame`.
-/

namespace GazeTracker

/-! ## Calibration data model (CalibrationScreen.tsx / CalibrationService.ts) -/

/-- The persisted `{ slope, intercept }` record (`linearTransform`). -/
structure LinearTransform where
  slope : ℚ
  intercept : ℚ
deriving DecidableEq, Repr

/-- A calibration target position (`'left' | 'center' | 'right'`). -/
inductive Position where
  | left
  | center
  | right
deriving DecidableEq, Repr

/-- One `CalibrationPoint`: a target position, the accumulated gaze samples
(`none` models a non-finite float), and the target value (−1, 0, +1). -/
structure CalibrationPoint where
  position : Position
  gazeValues : List (Option ℚ)
  targetValue : ℚ
deriving DecidableEq, Repr

/-- The `CalibrationData` record (timestamp omitted; it is wall-clock data). -/
structure CalibrationData where
  points : List CalibrationPoint
  isComplete : Bool
  linearTransform : Option LinearTransform
deriving DecidableEq, Repr

/-- Mean of a point's `gazeValues` exactly as
`gazeValues.reduce((sum, val) => sum + val, 0) / gazeValues.length` followed by
the `!isNaN && isFinite` validity test of `calculateLinearTransform`
(CalibrationScreen.tsx lines 297–305): the mean is valid (`some`) iff the list
is non-empty and every sample is finite, in which case it is the exact average.
An empty list gives `0/0 = NaN` in JavaScript, hence `none` here. -/
def meanGaze (vs : List (Option ℚ)) : Option ℚ :=
  if vs.isEmpty || vs.contains none then none
  else some ((vs.filterMap id).sum / (vs.length : ℚ))

/-- The valid `(targetValue, measuredMean)` triples of
CalibrationScreen.tsx lines 297–305: one `(target, measured)` pair per point
whose measured mean is finite. -/
def validTriples (points : List CalibrationPoint) : List (ℚ × ℚ) :=
  points.filterMap (fun p => (meanGaze p.gazeValues).map (fun m => (p.targetValue, m)))

/-- `Math.max(...)` over a list, as spread over a non-empty argument list.
The function is only ever applied to lists of length ≥ 2 (guarded by the
`validAverages.length < 2` check), so the `[]` case is unreachable. -/
def listMax : List ℚ → ℚ
  | [] => 0
  | [x] => x
  | x :: y :: ys => max x (listMax (y :: ys))

/-- `Math.min(...)` over a list, as spread over a non-empty argument list.
Only applied to lists of length ≥ 2; the `[]` case is unreachable. -/
def listMin : List ℚ → ℚ
  | [] => 0
  | [x] => x
  | x :: y :: ys => min x (listMin (y :: ys))

/-- `Math.abs` on a (finite) double. -/
def mathAbs (q : ℚ) : ℚ := if q < 0 then -q else q

/-- The regression / fallback portion of `calculateLinearTransform`
(CalibrationScreen.tsx lines 306–341), as a function of the valid
`(target, measured)` triples.  In exact arithmetic the final
`isFinite(slope) && isFinite(intercept)` guard (lines 335–338) always passes,
since the denominator is non-zero on the regression branch. -/
def fitTransform (valid : List (ℚ × ℚ)) : LinearTransform :=
  if valid.length < 2 then ⟨1, 0⟩
  else
    let n : ℚ := valid.length
    let sumX := (valid.map (fun p => p.2)).sum
    let sumY := (valid.map (fun p => p.1)).sum
    let sumXY := (valid.map (fun p => p.2 * p.1)).sum
    let sumX2 := (valid.map (fun p => p.2 * p.2)).sum
    let denominator := n * sumX2 - sumX * sumX
    if mathAbs denominator < 1 / 10 ^ 10 then
      let measuredRange := listMax (valid.map (fun p => p.2)) - listMin (valid.map (fun p => p.2))
      let slope := if measuredRange > 0 then 2 / measuredRange else 1
      let intercept := -sumX / n * slope
      ⟨slope, intercept⟩
    else
      let slope := (n * sumXY - sumX * sumY) / denominator
      let intercept := (sumY - slope * sumX) / n
      ⟨slope, intercept⟩

/-- `calculateLinearTransform` (CalibrationScreen.tsx lines 289–342):
identity if the three calibration points are not all present, otherwise the
regression fit over the valid triples. -/
def calculateLinearTransform (points : List CalibrationPoint) : LinearTransform :=
  if points.length ≠ 3 then ⟨1, 0⟩
  else fitTransform (validTriples points)

/-- Outcome of `completeCalibration` (CalibrationScreen.tsx lines 226–287):
either one of the two validation failures (which return without persisting
anything), or the persisted final `CalibrationData`. -/
inductive CalibrationResult where
  | missingPositions (missing : List Position)
  | insufficientFrames (positions : List Position)
  | saved (data : CalibrationData)
deriving DecidableEq, Repr

/-- `completeCalibration` (CalibrationScreen.tsx lines 226–287).  The
`Alert` / `AsyncStorage` side effects are the environment's; `saved d` models
`AsyncStorage.setItem('gazeCalibration', d)` reaching storage. -/
def completeCalibration (data : CalibrationData) : CalibrationResult :=
  let requiredPositions := [Position.left, Position.center, Position.right]
  let collectedPositions := data.points.map (fun p => p.position)
  let missingPositions := requiredPositions.filter (fun pos => !(collectedPositions.contains pos))
  if missingPositions.length > 0 then .missingPositions missingPositions
  else
    let insufficientPoints := data.points.filter (fun p => decide (p.gazeValues.length < 5))
    if insufficientPoints.length > 0 then
      .insufficientFrames (insufficientPoints.map (fun p => p.position))
    else
      let transform := calculateLinearTransform data.points
      .saved { data with isComplete := true, linearTransform := some transform }

/-- Spec-side definition, for refinement comparison only.  Modelled from the
spec's words for the degenerate-denominator fallback: "slope = 2 /
measuredRange (or 1 if range is zero), intercept = -mean(measured) * slope",
with measuredRange the difference between the largest and smallest measured
means of the valid triples. -/
def specRangeFallback (valid : List (ℚ × ℚ)) : LinearTransform :=
  let measured := valid.map (fun p => p.2)
  let measuredRange := listMax measured - listMin measured
  let slope := if measuredRange > 0 then 2 / measuredRange else 1
  ⟨slope, -(measured.sum / (measured.length : ℚ)) * slope⟩

/-- A calibration run in which every collected sample was non-finite: all
three positions present, five samples each, every mean invalid, so zero valid
triples remain. -/
def allNaNCalibrationData : CalibrationData :=
  ⟨[⟨Position.left, List.replicate 5 none, -1⟩,
    ⟨Position.center, List.replicate 5 none, 0⟩,
    ⟨Position.right, List.replicate 5 none, 1⟩], false, none⟩

end GazeTracker

namespace GazeTracker

/-! ## Detection pipeline data model (TensorFlowProcessor.kt) -/

/-- `Point(x, y)`. -/
structure Point where
  x : ℚ
  y : ℚ
deriving DecidableEq, Repr

/-- `EyeData(iris, innerCorner, outerCorner)`. -/
structure EyeData where
  iris : Point
  innerCorner : Point
  outerCorner : Point
deriving DecidableEq, Repr

/-- `GazeData` (normalized gaze plus the geometry it was computed from). -/
structure GazeData where
  normalizedGazeX : ℚ
  rawGazeX : ℚ
  leftEyeX : ℚ
  rightEyeX : ℚ
  confidence : ℚ
deriving DecidableEq, Repr

/-- `EyeLandmarks` (the two wall-clock timestamp fields are omitted). -/
structure EyeLandmarks where
  leftEye : EyeData
  rightEye : EyeData
  confidence : ℚ
  gazeData : Option GazeData
deriving DecidableEq, Repr

/-- An RGB bitmap: dimensions plus packed-ARGB pixel lookup, as used by
`Bitmap.getPixel` (channels extracted by shifting and masking). -/
structure Bitmap where
  width : ℕ
  height : ℕ
  pixel : ℕ → ℕ → ℕ

/-- Kotlin `Float.toInt()`: truncation toward zero. -/
def qtrunc (q : ℚ) : ℤ := if 0 ≤ q then ⌊q⌋ else ⌈q⌉

/-- `createNoFaceResult` (TensorFlowProcessor.kt lines 253–270): the
no-detection sentinel — confidence 0, every landmark at the origin, no gaze
data. -/
def createNoFaceResult : EyeLandmarks :=
  ⟨⟨⟨0, 0⟩, ⟨0, 0⟩, ⟨0, 0⟩⟩, ⟨⟨0, 0⟩, ⟨0, 0⟩, ⟨0, 0⟩⟩, 0, none⟩

/-- The detection-selection loop of `processBlazeFaceDetections`
(TensorFlowProcessor.kt lines 160–177), expressed over the per-index sigmoid
confidences (`confidence_i = 1 / (1 + exp(-logit_i))`, computed pointwise in
the source; the loop depends on the logits only through these confidences and
sigmoid is strictly monotone).  State: current index, `bestDetectionIndex`
(`none` models the initial `-1`) and `bestConfidence`.  An index is recorded
only when its confidence strictly exceeds both the running maximum and the
acceptance threshold `0.01`. -/
def scanDetections : List ℚ → ℕ → Option ℕ → ℚ → Option ℕ × ℚ
  | [], _, best, bestConf => (best, bestConf)
  | c :: rest, i, best, bestConf =>
    if c > bestConf then
      scanDetections rest (i + 1) (if c > 1 / 100 then some i else best) c
    else
      scanDetections rest (i + 1) best bestConf

/-- `bestDetectionIndex` and `bestConfidence` after the full scan, starting
from `-1` / `0.0` as in the source. -/
def bestDetection (classificators : List ℚ) : Option ℕ × ℚ :=
  scanDetections classificators 0 none 0

/-- The decoded face box of `processBlazeFaceDetections`
(TensorFlowProcessor.kt lines 186–203) for a winning index `i`: the first four
floats of regressor row `i` as (centerX, centerY, width, height), scaled by
`imageWidth / 128` and `imageHeight / 128`, center converted to top-left.
Tensor shape is fixed at 896 rows × 16 floats, so the `getD` defaults are
never reached for a real tensor. -/
structure FaceBox where
  left : ℚ
  top : ℚ
  width : ℚ
  height : ℚ
deriving DecidableEq, Repr

/-- See `FaceBox`. -/
def decodeBoxAt (regressors : List (List ℚ)) (i : ℕ)
    (imageWidth imageHeight : ℚ) : FaceBox :=
  let coords := regressors.getD i []
  let scaleX := imageWidth / 128
  let scaleY := imageHeight / 128
  let faceX := coords.getD 0 0 * scaleX
  let faceY := coords.getD 1 0 * scaleY
  let faceWidth := coords.getD 2 0 * scaleX
  let faceHeight := coords.getD 3 0 * scaleY
  ⟨faceX - faceWidth / 2, faceY - faceHeight / 2, faceWidth, faceHeight⟩

/-- The decoded best detection: `none` iff no confidence exceeded the
threshold (`bestDetectionIndex == -1`). -/
def decodeFaceBox (regressors : List (List ℚ)) (classificators : List ℚ)
    (imageWidth imageHeight : ℚ) : Option FaceBox :=
  (bestDetection classificators).1.map
    (fun i => decodeBoxAt regressors i imageWidth imageHeight)

/-! Eye-geometry heuristics of `processBlazeFaceDetections`
(TensorFlowProcessor.kt lines 207–225), as functions of the decoded box. -/

/-- `eyeY = faceTop + faceHeight * 0.35`. -/
def eyeRowY (box : FaceBox) : ℚ := box.top + box.height * (35 / 100)

/-- `leftEyeX = faceLeft + faceWidth * 0.3`. -/
def leftEyeCenterX (box : FaceBox) : ℚ := box.left + box.width * (3 / 10)

/-- `rightEyeX = faceLeft + faceWidth * 0.7`. -/
def rightEyeCenterX (box : FaceBox) : ℚ := box.left + box.width * (7 / 10)

/-- `eyeSpacing = faceWidth * 0.08`. -/
def eyeSpacing (box : FaceBox) : ℚ := box.width * (8 / 100)

/-- `leftEyeOuterX = leftEyeX - eyeSpacing`. -/
def leftOuterCornerX (box : FaceBox) : ℚ := leftEyeCenterX box - eyeSpacing box

/-- `rightEyeOuterX = rightEyeX + eyeSpacing`. -/
def rightOuterCornerX (box : FaceBox) : ℚ := rightEyeCenterX box + eyeSpacing box

/-- The `eyeRegionSize` argument passed to `detectIrisInEyeRegion`:
`faceWidth * 0.15`. -/
def irisSearchSize (box : FaceBox) : ℚ := box.width * (15 / 100)

/-- The unclipped pixel window of `detectIrisInEyeRegion`
(TensorFlowProcessor.kt lines 281–285): `regionHalfSize = eyeRegionSize / 2`
on each side of the region center, truncated to Int, before the clipping
against `0` / `width` / `height`.  Returned as (left, top, right, bottom). -/
def eyeWindowRaw (eyeCenterX eyeCenterY eyeRegionSize : ℚ) : ℤ × ℤ × ℤ × ℤ :=
  let regionHalfSize := eyeRegionSize / 2
  (qtrunc (eyeCenterX - regionHalfSize), qtrunc (eyeCenterY - regionHalfSize),
   qtrunc (eyeCenterX + regionHalfSize), qtrunc (eyeCenterY + regionHalfSize))

/-- Weighted grayscale intensity of a packed pixel
(TensorFlowProcessor.kt lines 305–309): `red*0.3 + green*0.3 + blue*0.4`. -/
def pixelIntensity (p : ℕ) : ℚ :=
  let red := (p >>> 16) &&& 0xFF
  let green := (p >>> 8) &&& 0xFF
  let blue := p &&& 0xFF
  (red : ℚ) * (3 / 10) + (green : ℚ) * (3 / 10) + (blue : ℚ) * (4 / 10)

/-- One scan line of `detectIrisInEyeRegion` (lines 302–316): walk `x` from
`left` to `right - 1`, tracking the darkest pixel's X (strict `<`, so ties
keep the first-seen pixel).  State is `(darkestX, darkestIntensity)`. -/
def scanLineDarkest (bmp : Bitmap) (scanY left right : ℤ) (st : ℚ × ℚ) : ℚ × ℚ :=
  (List.range (right - left).toNat).foldl
    (fun st dx =>
      let x := left + (dx : ℤ)
      let intensity := pixelIntensity (bmp.pixel x.toNat scanY.toNat)
      if intensity < st.2 then ((x : ℚ), intensity) else st)
    st

/-- `detectIrisInEyeRegion` (TensorFlowProcessor.kt lines 275–333).  The
window is clipped to the image; a degenerate window returns the region center.
Three scan lines are sampled at `top + lineSpacing * (lineIdx + 1)` with
`lineSpacing = max(1, (bottom - top) / 4)` (Kotlin integer division; the
operands are non-negative on this branch).  The darkest X is then smoothed:
displacement from the center is clamped to `±(eyeRegionSize * 0.5)`. -/
def detectIrisInEyeRegion (bmp : Bitmap) (eyeCenterX eyeCenterY eyeRegionSize : ℚ) : ℚ :=
  let raw := eyeWindowRaw eyeCenterX eyeCenterY eyeRegionSize
  let left := max 0 raw.1
  let top := max 0 raw.2.1
  let right := min (bmp.width : ℤ) raw.2.2.1
  let bottom := min (bmp.height : ℤ) raw.2.2.2
  if right ≤ left ∨ bottom ≤ top then eyeCenterX
  else
    let lineSpacing : ℤ := max 1 ((bottom - top) / 4)
    let st := (List.range 3).foldl
      (fun st lineIdx =>
        let scanY := top + lineSpacing * ((lineIdx : ℤ) + 1)
        if top ≤ scanY ∧ scanY < bottom then scanLineDarkest bmp scanY left right st else st)
      ((eyeCenterX, (255 : ℚ)))
    let maxMovement := eyeRegionSize * (1 / 2)
    let movement := st.1 - eyeCenterX
    eyeCenterX + max (-maxMovement) (min maxMovement movement)

/-- `calculateNormalizedGaze` (TensorFlowProcessor.kt lines 340–372): sort the
two corner Xs, take the span; if the span exceeds 0.001 apply
`2*((irisX - left)/span) - 1` clamped to [−1, 1], otherwise output 0. -/
def calculateNormalizedGaze (irisX leftEyeX rightEyeX confidence : ℚ) : GazeData :=
  let actualLeftX := min leftEyeX rightEyeX
  let actualRightX := max leftEyeX rightEyeX
  let eyeSpan := actualRightX - actualLeftX
  let normalizedGazeX :=
    if eyeSpan > 1 / 1000 then
      max (-1) (min 1 (2 * ((irisX - actualLeftX) / eyeSpan) - 1))
    else 0
  ⟨normalizedGazeX, irisX, actualLeftX, actualRightX, confidence⟩

/-- `processBlazeFaceDetections` (TensorFlowProcessor.kt lines 153–251):
select the best detection; if none, the sentinel; otherwise decode the box,
derive the eye geometry, localize both irises, and normalize the gaze. -/
def processBlazeFaceDetections (regressors : List (List ℚ)) (classificators : List ℚ)
    (bmp : Bitmap) (imageWidth imageHeight : ℚ) : EyeLandmarks :=
  match (bestDetection classificators).1 with
  | none => createNoFaceResult
  | some i =>
    let box := decodeBoxAt regressors i imageWidth imageHeight
    let bestConfidence := (bestDetection classificators).2
    let eyeY := eyeRowY box
    let leftIrisX := detectIrisInEyeRegion bmp (leftEyeCenterX box) eyeY (irisSearchSize box)
    let rightIrisX := detectIrisInEyeRegion bmp (rightEyeCenterX box) eyeY (irisSearchSize box)
    let averageIrisX := (leftIrisX + rightIrisX) / 2
    let gazeData := calculateNormalizedGaze averageIrisX
      (leftOuterCornerX box) (rightOuterCornerX box) bestConfidence
    ⟨⟨⟨leftIrisX, eyeY⟩, ⟨leftEyeCenterX box + eyeSpacing box, eyeY⟩,
      ⟨leftOuterCornerX box, eyeY⟩⟩,
     ⟨⟨rightIrisX, eyeY⟩, ⟨rightEyeCenterX box - eyeSpacing box, eyeY⟩,
      ⟨rightOuterCornerX box, eyeY⟩⟩,
     bestConfidence, some gazeData⟩

/-- The mutable processor fields consulted by `processFrame`
(TensorFlowProcessor.kt lines 30–32): `isModelLoaded`, `interpreter`,
`inputBuffer` (the latter two abstracted to presence/absence). -/
structure ProcessorState where
  isModelLoaded : Bool
  interpreter : Option Unit
  inputBuffer : Option Unit
deriving DecidableEq, Repr

/-- `processFrame` (TensorFlowProcessor.kt lines 91–121).  `frame` is the
result of `imageToBitmap` (`none` models a failed conversion); `inference`
models `runInference` — `.error` models it throwing, in which case the
`catch` block returns `null`.  Preprocessing and buffer filling do not affect
the returned value and are folded into the opaque inference result. -/
def processFrame (st : ProcessorState) (frame : Option Bitmap)
    (inference : Except Unit (List (List ℚ) × List ℚ))
    (imageWidth imageHeight : ℚ) : Option EyeLandmarks :=
  if !st.isModelLoaded || st.interpreter.isNone || st.inputBuffer.isNone then none
  else
    match frame with
    | none => none
    | some bmp =>
      match inference with
      | .error _ => none
      | .ok (regressors, classificators) =>
        some (processBlazeFaceDetections regressors classificators bmp imageWidth imageHeight)

/-! ## CalibrationService (CalibrationService.ts) -/

/-- The service's mutable fields: `isLoaded` and the in-memory
`calibrationData` (CalibrationService.ts lines 20–22). -/
structure ServiceState where
  isLoaded : Bool
  calibrationData : Option CalibrationData
deriving DecidableEq, Repr

/-- `isCalibrated` (CalibrationService.ts lines 55–59): loaded, record marked
complete, and a transform present. -/
def isCalibrated (st : ServiceState) : Bool :=
  st.isLoaded &&
    (match st.calibrationData with
     | some d => d.isComplete && d.linearTransform.isSome
     | none => false)

/-- `this.calibrationData?.linearTransform`. -/
def loadedTransform (st : ServiceState) : Option LinearTransform :=
  st.calibrationData.bind (fun d => d.linearTransform)

/-- `applyCalibratedGaze` (CalibrationService.ts lines 64–77): raw value when
not calibrated or no transform, otherwise `clamp(slope*raw + intercept, -1, 1)`
(a present transform object is always truthy in JavaScript). -/
def applyCalibratedGaze (st : ServiceState) (rawGazeX : ℚ) : ℚ :=
  if !(isCalibrated st) || (loadedTransform st).isNone then rawGazeX
  else
    match loadedTransform st with
    | none => rawGazeX
    | some t => max (-1) (min 1 (t.slope * rawGazeX + t.intercept))

end GazeTracker

namespace GazeTracker

/-! ## Theorems: calibration regression (C1, C2, C3) -/

/-- C1: for at least 2 valid (target, measured) triples whose regression
denominator n·Σx² − (Σx)² has magnitude at least 1e-10, the computed transform
is slope = (n·Σxy − Σx·Σy) / (n·Σx² − (Σx)²), intercept = (Σy − slope·Σx) / n,
with x the measured means and y the target values. -/
theorem fitTransform_regression_formula (valid : List (ℚ × ℚ))
    (hlen : 2 ≤ valid.length)
    (hden : 1 / 10 ^ 10 ≤ mathAbs ((valid.length : ℚ) * (valid.map (fun p => p.2 * p.2)).sum -
      (valid.map (fun p => p.2)).sum * (valid.map (fun p => p.2)).sum)) :
    fitTransform valid =
      ⟨((valid.length : ℚ) * (valid.map (fun p => p.2 * p.1)).sum -
          (valid.map (fun p => p.2)).sum * (valid.map (fun p => p.1)).sum) /
        ((valid.length : ℚ) * (valid.map (fun p => p.2 * p.2)).sum -
          (valid.map (fun p => p.2)).sum * (valid.map (fun p => p.2)).sum),
        ((valid.map (fun p => p.1)).sum -
          (((valid.length : ℚ) * (valid.map (fun p => p.2 * p.1)).sum -
            (valid.map (fun p => p.2)).sum * (valid.map (fun p => p.1)).sum) /
          ((valid.length : ℚ) * (valid.map (fun p => p.2 * p.2)).sum -
            (valid.map (fun p => p.2)).sum * (valid.map (fun p => p.2)).sum)) *
          (valid.map (fun p => p.2)).sum) / (valid.length : ℚ)⟩ := by
  rw [fitTransform, if_neg (by omega), if_neg (not_lt.mpr hden)]

/-- Witness for C1 at the concrete triples (−1, −4/5), (0, 0), (1, 4/5):
the denominator is 96/25 and the fit is slope 5/4, intercept 0. -/
theorem fitTransform_regression_formula_witness :
    2 ≤ ([((-1 : ℚ), -4/5), (0, 0), (1, 4/5)] : List (ℚ × ℚ)).length ∧
    1 / 10 ^ 10 ≤ mathAbs ((([((-1 : ℚ), -4/5), (0, 0), (1, 4/5)] : List (ℚ × ℚ)).length : ℚ) *
      ([((-1 : ℚ), -4/5), (0, 0), (1, 4/5)].map (fun p => p.2 * p.2)).sum -
      ([((-1 : ℚ), -4/5), (0, 0), (1, 4/5)].map (fun p => p.2)).sum *
      ([((-1 : ℚ), -4/5), (0, 0), (1, 4/5)].map (fun p => p.2)).sum) ∧
    fitTransform [((-1 : ℚ), -4/5), (0, 0), (1, 4/5)] = ⟨5/4, 0⟩ := by
  refine ⟨by norm_num, by simp [mathAbs]; norm_num, ?_⟩
  rw [fitTransform_regression_formula _ (by norm_num) (by simp [mathAbs]; norm_num)]
  simp
  norm_num

/-- C2 counterexample: on a run with fewer than 2 valid triples (here zero),
the Computing step does not fail with an "insufficient data" result — it
persists a CalibrationData marked complete with the identity transform. -/
theorem completeCalibration_persists_on_insufficient_data :
    (validTriples allNaNCalibrationData.points).length < 2 ∧
    completeCalibration allNaNCalibrationData =
      CalibrationResult.saved
        ⟨allNaNCalibrationData.points, true, some ⟨1, 0⟩⟩ := by
  constructor
  · decide
  · decide

/-- C2 amended: if the position and frame-count validations pass but fewer
than 2 valid triples remain, `completeCalibration` does not fail: it persists
the calibration marked complete with the identity transform (slope 1,
intercept 0). -/
theorem completeCalibration_insufficient_data_identity (data : CalibrationData)
    (hpos : ([Position.left, Position.center, Position.right].filter
      (fun pos => !((data.points.map (fun p => p.position)).contains pos))).length = 0)
    (hcnt : (data.points.filter (fun p => decide (p.gazeValues.length < 5))).length = 0)
    (hvalid : (validTriples data.points).length < 2) :
    completeCalibration data =
      CalibrationResult.saved { data with isComplete := true, linearTransform := some ⟨1, 0⟩ } := by
  have htr : calculateLinearTransform data.points = ⟨1, 0⟩ := by
    rw [calculateLinearTransform]
    by_cases h3 : data.points.length ≠ 3
    · rw [if_pos h3]
    · rw [if_neg h3, fitTransform, if_pos hvalid]
  rw [completeCalibration]
  simp only [hpos, hcnt, htr]
  simp

/-- Witness for the amended C2 at the all-non-finite run. -/
theorem completeCalibration_insufficient_data_identity_witness :
    (validTriples allNaNCalibrationData.points).length < 2 ∧
    completeCalibration allNaNCalibrationData =
      CalibrationResult.saved
        { allNaNCalibrationData with isComplete := true, linearTransform := some ⟨1, 0⟩ } :=
  ⟨by decide,
   completeCalibration_insufficient_data_identity allNaNCalibrationData
     (by decide) (by decide) (by decide)⟩

/-- C3 counterexample: a single valid triple (target 0, measured 1/2) has
regression denominator 0, of magnitude below 1e-10, yet the computed transform
is the identity (1, 0), not the range-based fallback (1, −1/2). -/
theorem fitTransform_single_triple_not_fallback :
    mathAbs ((([((0 : ℚ), 1/2)] : List (ℚ × ℚ)).length : ℚ) *
        ([((0 : ℚ), 1/2)].map (fun p => p.2 * p.2)).sum -
        ([((0 : ℚ), 1/2)].map (fun p => p.2)).sum * ([((0 : ℚ), 1/2)].map (fun p => p.2)).sum)
      < 1 / 10 ^ 10 ∧
    specRangeFallback [((0 : ℚ), 1/2)] = ⟨1, -(1/2)⟩ ∧
    fitTransform [((0 : ℚ), 1/2)] = ⟨1, 0⟩ ∧
    fitTransform [((0 : ℚ), 1/2)] ≠ specRangeFallback [((0 : ℚ), 1/2)] := by
  refine ⟨by norm_num [mathAbs], ?_, by rw [fitTransform, if_pos (by norm_num)], ?_⟩
  · simp [specRangeFallback, listMax, listMin]
  · rw [fitTransform, if_pos (by norm_num)]
    simp [specRangeFallback, listMax, listMin]

/-- C3 amended: for at least 2 valid triples whose regression denominator has
magnitude below 1e-10, the computed transform equals the range-based fallback:
slope = 2 / measuredRange if measuredRange > 0 (else 1), intercept =
−mean(measured) · slope. -/
theorem fitTransform_degenerate_range_fallback (valid : List (ℚ × ℚ))
    (hlen : 2 ≤ valid.length)
    (hden : mathAbs ((valid.length : ℚ) * (valid.map (fun p => p.2 * p.2)).sum -
      (valid.map (fun p => p.2)).sum * (valid.map (fun p => p.2)).sum) < 1 / 10 ^ 10) :
    fitTransform valid = specRangeFallback valid := by
  rw [fitTransform, if_neg (by omega), if_pos hden, specRangeFallback]
  simp only [List.length_map, List.map_map]
  rw [neg_div]

/-- Witness for the amended C3 at the triples (−1, 1/2), (1, 1/2). -/
theorem fitTransform_degenerate_range_fallback_witness :
    mathAbs ((([((-1 : ℚ), 1/2), (1, 1/2)] : List (ℚ × ℚ)).length : ℚ) *
        ([((-1 : ℚ), 1/2), (1, 1/2)].map (fun p => p.2 * p.2)).sum -
        ([((-1 : ℚ), 1/2), (1, 1/2)].map (fun p => p.2)).sum *
        ([((-1 : ℚ), 1/2), (1, 1/2)].map (fun p => p.2)).sum) < 1 / 10 ^ 10 ∧
    fitTransform [((-1 : ℚ), 1/2), (1, 1/2)] = specRangeFallback [((-1 : ℚ), 1/2), (1, 1/2)] ∧
    specRangeFallback [((-1 : ℚ), 1/2), (1, 1/2)] = ⟨1, -(1/2)⟩ :=
  ⟨by norm_num [mathAbs],
   fitTransform_degenerate_range_fallback _ (by norm_num) (by norm_num [mathAbs]),
   by simp [specRangeFallback, listMax, listMin]⟩

end GazeTracker

namespace GazeTracker

/-! ## Theorems: gaze normalization and detection decoding (C4, C5, C6) -/

/-- C4: the normalized gaze lies in [−1, 1] for arbitrary finite iris and
corner inputs, and equals exactly 0 whenever the sorted outer-corner span is
below the epsilon 0.001, regardless of the iris position. -/
theorem calculateNormalizedGaze_bounded_and_degenerate
    (irisX leftEyeX rightEyeX confidence : ℚ) :
    (-1 ≤ (calculateNormalizedGaze irisX leftEyeX rightEyeX confidence).normalizedGazeX ∧
      (calculateNormalizedGaze irisX leftEyeX rightEyeX confidence).normalizedGazeX ≤ 1) ∧
    (max leftEyeX rightEyeX - min leftEyeX rightEyeX < 1 / 1000 →
      (calculateNormalizedGaze irisX leftEyeX rightEyeX confidence).normalizedGazeX = 0) := by
  rw [calculateNormalizedGaze]
  constructor
  · by_cases h : max leftEyeX rightEyeX - min leftEyeX rightEyeX > 1 / 1000
    · simp only [if_pos h]
      constructor
      · exact le_max_left _ _
      · exact max_le (by norm_num) (min_le_left _ _)
    · simp only [if_neg h]
      norm_num
  · intro hspan
    rw [if_neg (by linarith)]

/-- Witness for C4 at iris 5, both corners at 0 (span 0 < 0.001). -/
theorem calculateNormalizedGaze_bounded_and_degenerate_witness :
    -1 ≤ (calculateNormalizedGaze 5 0 0 1).normalizedGazeX ∧
    (calculateNormalizedGaze 5 0 0 1).normalizedGazeX ≤ 1 ∧
    (calculateNormalizedGaze 5 0 0 1).normalizedGazeX = 0 :=
  ⟨(calculateNormalizedGaze_bounded_and_degenerate 5 0 0 1).1.1,
   (calculateNormalizedGaze_bounded_and_degenerate 5 0 0 1).1.2,
   (calculateNormalizedGaze_bounded_and_degenerate 5 0 0 1).2 (by norm_num)⟩

end GazeTracker

namespace GazeTracker

/-- If no remaining confidence exceeds the running maximum, the scan state is
unchanged. -/
theorem scanDetections_of_all_le (confs : List ℚ) (i : ℕ) (best : Option ℕ) (bc : ℚ)
    (h : ∀ c ∈ confs, c ≤ bc) : scanDetections confs i best bc = (best, bc) := by
  induction confs generalizing i with
  | nil => rfl
  | cons c rest ih =>
    rw [scanDetections, if_neg (not_lt.mpr (h c (by simp)))]
    exact ih _ (fun x hx => h x (by simp [hx]))

/-- If no confidence in the list exceeds the acceptance threshold 0.01, no
index is ever recorded. -/
theorem scanDetections_below_threshold (confs : List ℚ) (i : ℕ) (bc : ℚ)
    (h : ∀ c ∈ confs, c ≤ 1 / 100) : (scanDetections confs i none bc).1 = none := by
  induction confs generalizing i bc with
  | nil => rfl
  | cons c rest ih =>
    rw [scanDetections]
    by_cases hc : c > bc
    · rw [if_pos hc, if_neg (not_lt.mpr (h c (by simp)))]
      exact ih _ _ (fun x hx => h x (by simp [hx]))
    · rw [if_neg hc]
      exact ih _ _ (fun x hx => h x (by simp [hx]))

/-- Scanning a list whose unique strict maximum `ck` sits after prefix `pre`
records exactly the index of `ck`, provided `ck` clears the threshold. -/
theorem scanDetections_single_max (pre post : List ℚ) (ck : ℚ) (i : ℕ)
    (best : Option ℕ) (bc : ℚ) (hbc : bc < ck) (hthr : 1 / 100 < ck)
    (hpre : ∀ c ∈ pre, c < ck) (hpost : ∀ c ∈ post, c < ck) :
    (scanDetections (pre ++ ck :: post) i best bc).1 = some (i + pre.length) := by
  induction pre generalizing i best bc with
  | nil =>
    rw [List.nil_append, scanDetections, if_pos hbc, if_pos hthr,
      scanDetections_of_all_le _ _ _ _ (fun x hx => le_of_lt (hpost x hx))]
    simp
  | cons c pre' ih =>
    rw [List.cons_append, scanDetections]
    by_cases hc : c > bc
    · rw [if_pos hc]
      rw [ih (i + 1) _ _ (hpre c (by simp)) (fun x hx => hpre x (by simp [hx]))]
      simp only [List.length_cons]
      congr 1
      omega
    · rw [if_neg hc]
      rw [ih (i + 1) _ _ hbc (fun x hx => hpre x (by simp [hx]))]
      simp only [List.length_cons]
      congr 1
      omega

/-- C5: when every sigmoid confidence is at most the acceptance threshold
0.01, the decoder returns the no-detection sentinel — confidence 0, every
landmark at the origin, no gaze data — and (being a total function) raises no
exception. -/
theorem processBlazeFaceDetections_no_detection (regressors : List (List ℚ))
    (classificators : List ℚ) (bmp : Bitmap) (imageWidth imageHeight : ℚ)
    (h : ∀ c ∈ classificators, c ≤ 1 / 100) :
    processBlazeFaceDetections regressors classificators bmp imageWidth imageHeight =
      createNoFaceResult ∧
    createNoFaceResult.confidence = 0 ∧
    createNoFaceResult.leftEye = ⟨⟨0, 0⟩, ⟨0, 0⟩, ⟨0, 0⟩⟩ ∧
    createNoFaceResult.rightEye = ⟨⟨0, 0⟩, ⟨0, 0⟩, ⟨0, 0⟩⟩ ∧
    createNoFaceResult.gazeData = none := by
  have hnone : (bestDetection classificators).1 = none :=
    scanDetections_below_threshold classificators 0 0 h
  refine ⟨?_, rfl, rfl, rfl, rfl⟩
  rw [processBlazeFaceDetections, hnone]

/-- Witness for C5: two logits with confidences 1/100 and −5, no bitmap
content, 128×128 image. -/
theorem processBlazeFaceDetections_no_detection_witness :
    (∀ c ∈ ([1 / 100, -5] : List ℚ), c ≤ 1 / 100) ∧
    processBlazeFaceDetections [] [1 / 100, -5] ⟨0, 0, fun _ _ => 0⟩ 128 128 =
      createNoFaceResult :=
  ⟨(by intro c hc; simp at hc; rcases hc with rfl | rfl <;> norm_num),
   (processBlazeFaceDetections_no_detection [] [1 / 100, -5] ⟨0, 0, fun _ _ => 0⟩ 128 128
     (by intro c hc; simp at hc; rcases hc with rfl | rfl <;> norm_num)).1⟩

/-- C6: for a classificator list whose unique strict maximum `ck` (above the
threshold) sits at index `pre.length`, and any scale pair
(imageWidth/128, imageHeight/128), the decoded box is regressor row
`pre.length`'s first four floats (centerX, centerY, width, height), scaled
independently in X and Y, center converted to top-left by subtracting half the
scaled width and height. -/
theorem decodeFaceBox_single_max (pre post rest : List ℚ) (ck : ℚ)
    (regressors : List (List ℚ)) (imageWidth imageHeight cx cy w ht : ℚ)
    (hthr : 1 / 100 < ck) (hpre : ∀ c ∈ pre, c < ck) (hpost : ∀ c ∈ post, c < ck)
    (hrow : regressors.getD pre.length [] = cx :: cy :: w :: ht :: rest) :
    decodeFaceBox regressors (pre ++ ck :: post) imageWidth imageHeight =
      some ⟨cx * (imageWidth / 128) - w * (imageWidth / 128) / 2,
            cy * (imageHeight / 128) - ht * (imageHeight / 128) / 2,
            w * (imageWidth / 128), ht * (imageHeight / 128)⟩ := by
  rw [decodeFaceBox, bestDetection,
    scanDetections_single_max pre post ck 0 none 0 (by linarith) hthr hpre hpost]
  simp only [List.getD_eq_getElem?_getD] at hrow
  simp [decodeBoxAt, hrow]

/-- Witness for C6: confidences [0, 1], winning row [64, 64, 32, 32],
image 256×128 (scales 2 and 1). -/
theorem decodeFaceBox_single_max_witness :
    (1 / 100 < (1 : ℚ)) ∧
    decodeFaceBox [[0, 0, 0, 0], [64, 64, 32, 32]] ([0] ++ (1 : ℚ) :: []) 256 128 =
      some ⟨96, 48, 64, 32⟩ := by
  constructor
  · norm_num
  · rw [decodeFaceBox_single_max [0] [] [] 1 _ 256 128 64 64 32 32 (by norm_num)
      (by intro c hc; simp at hc; simp [hc]) (by intro c hc; cases hc) (by rfl)]
    norm_num

end GazeTracker

namespace GazeTracker

/-! ## Theorems: iris search window (C7) -/

/-- C7 counterexample: for a face of width 100 centered on (50, 50) the
claimed unclipped window (extending searchRadius = 0.15·w = 15 on each side)
would start at x = 35, but the code's window starts at
trunc(50 − 15/2) = 42: the parameter 0.15·w is the window's full side, not
its half-extent. -/
theorem eyeWindowRaw_not_radius_each_side :
    (eyeWindowRaw 50 50 (100 * (15 / 100))).1 = 42 ∧
    qtrunc (50 - 100 * (15 / 100)) = 35 ∧
    (eyeWindowRaw 50 50 (100 * (15 / 100))).1 ≠ qtrunc (50 - 100 * (15 / 100)) := by
  refine ⟨?_, ?_, ?_⟩
  · rw [eyeWindowRaw]
    norm_num [qtrunc]
  · norm_num [qtrunc]
  · rw [eyeWindowRaw]
    norm_num [qtrunc]

/-- C7 amended: the unclipped window scanned by `detectIrisInEyeRegion` is a
square of side `eyeRegionSize = 0.15·w`, i.e. it extends `0.075·w` (half the
passed region size) on each side of the region's center, truncated to Int. -/
theorem eyeWindowRaw_half_region_each_side (eyeCenterX eyeCenterY w : ℚ) :
    eyeWindowRaw eyeCenterX eyeCenterY (w * (15 / 100)) =
      (qtrunc (eyeCenterX - w * (75 / 1000)), qtrunc (eyeCenterY - w * (75 / 1000)),
       qtrunc (eyeCenterX + w * (75 / 1000)), qtrunc (eyeCenterY + w * (75 / 1000))) := by
  rw [eyeWindowRaw]
  norm_num
  refine ⟨?_, ?_, ?_, ?_⟩ <;> · congr 1; ring

end GazeTracker

namespace GazeTracker

/-! ## Theorems: model unavailability and calibration application (C8, C9) -/

/-- C8: whenever the detection model is absent or failing — model not loaded,
interpreter unavailable, input buffer unallocated, or inference throwing —
`processFrame` returns the failure value `null` (`none`) to its caller; it
never substitutes a fallback gaze estimate. -/
theorem processFrame_hard_failure (st : ProcessorState) (frame : Option Bitmap)
    (inference : Except Unit (List (List ℚ) × List ℚ)) (imageWidth imageHeight : ℚ)
    (h : st.isModelLoaded = false ∨ st.interpreter = none ∨ st.inputBuffer = none ∨
      inference = .error ()) :
    processFrame st frame inference imageWidth imageHeight = none := by
  rw [processFrame.eq_def]
  rcases h with h | h | h | h
  · rw [if_pos (by simp [h])]
  · rw [if_pos (by simp [h])]
  · rw [if_pos (by simp [h])]
  · by_cases hg : !st.isModelLoaded || st.interpreter.isNone || st.inputBuffer.isNone
    · rw [if_pos hg]
    · rw [if_neg hg]
      cases frame with
      | none => rfl
      | some bmp => rw [h]

/-- Witness for C8: model loaded but inference throwing, and a plain
model-not-loaded state. -/
theorem processFrame_hard_failure_witness :
    processFrame ⟨true, some (), some ()⟩ (some ⟨0, 0, fun _ _ => 0⟩)
      (Except.error ()) 128 128 = none ∧
    processFrame ⟨false, none, none⟩ none (Except.ok ([], [])) 128 128 = none :=
  ⟨processFrame_hard_failure _ _ _ 128 128 (Or.inr (Or.inr (Or.inr rfl))),
   processFrame_hard_failure _ _ _ 128 128 (Or.inl rfl)⟩

/-- C9: `applyCalibratedGaze` is the identity when no complete transform is
loaded (no record, record not marked complete, or transform missing), and
equals clamp(slope·x + intercept, −1, 1) when a complete transform is
loaded. -/
theorem applyCalibratedGaze_identity_or_clamp (st : ServiceState) (x : ℚ) :
    ((st.calibrationData = none ∨
      (∃ d, st.calibrationData = some d ∧ (d.isComplete = false ∨ d.linearTransform = none))) →
      applyCalibratedGaze st x = x) ∧
    (∀ d t, st.isLoaded = true → st.calibrationData = some d → d.isComplete = true →
      d.linearTransform = some t →
      applyCalibratedGaze st x = max (-1) (min 1 (t.slope * x + t.intercept))) := by
  constructor
  · intro h
    rw [applyCalibratedGaze]
    rcases h with h | ⟨d, hd, h | h⟩
    · rw [if_pos (by simp [loadedTransform, h])]
    · rw [if_pos (by simp [isCalibrated, hd, h])]
    · rw [if_pos (by simp [loadedTransform, hd, h])]
  · intro d t hl hd hc ht
    rw [applyCalibratedGaze,
      if_neg (by simp [isCalibrated, loadedTransform, hl, hd, hc, ht])]
    simp [loadedTransform, hd, ht]

/-- Witness for C9: identity on an unloaded service, clamp on a loaded
complete record with transform (2, 1/4) applied to 1/2. -/
theorem applyCalibratedGaze_identity_or_clamp_witness :
    applyCalibratedGaze ⟨false, none⟩ (1 / 2) = 1 / 2 ∧
    applyCalibratedGaze ⟨true, some ⟨[], true, some ⟨2, 1 / 4⟩⟩⟩ (1 / 2) =
      max (-1) (min 1 ((2 : ℚ) * (1 / 2) + 1 / 4)) :=
  ⟨(applyCalibratedGaze_identity_or_clamp ⟨false, none⟩ (1 / 2)).1 (Or.inl rfl),
   (applyCalibratedGaze_identity_or_clamp _ (1 / 2)).2 ⟨[], true, some ⟨2, 1 / 4⟩⟩
     ⟨2, 1 / 4⟩ rfl rfl rfl rfl⟩

end GazeTracker

namespace GazeTracker

/-! ## Theorems: outer-corner span within the pipeline (C10) -/

/-- C10: for any decoded face box of positive width w, the outer corners
passed to the gaze normalizer satisfy rightOuter − leftOuter = 0.56·w exactly
(left at faceLeft + 0.22·w, right at faceLeft + 0.78·w); and whenever
w > 0.001/0.56 = 1/560, the span exceeds the 0.001 epsilon, so the degenerate
zero branch of the normalizer is unreachable and the division formula is
applied. -/
theorem outerCorner_span_and_no_degenerate (box : FaceBox) (irisX confidence : ℚ)
    (hw : 0 < box.width) :
    (rightOuterCornerX box - leftOuterCornerX box = box.width * (56 / 100) ∧
     leftOuterCornerX box = box.left + box.width * (22 / 100) ∧
     rightOuterCornerX box = box.left + box.width * (78 / 100)) ∧
    (1 / 560 < box.width →
      (calculateNormalizedGaze irisX (leftOuterCornerX box) (rightOuterCornerX box)
          confidence).normalizedGazeX =
        max (-1) (min 1 (2 * ((irisX - leftOuterCornerX box) /
          (rightOuterCornerX box - leftOuterCornerX box)) - 1))) := by
  have hlt : leftOuterCornerX box < rightOuterCornerX box := by
    rw [leftOuterCornerX, rightOuterCornerX, leftEyeCenterX, rightEyeCenterX, eyeSpacing]
    nlinarith
  have hspan : rightOuterCornerX box - leftOuterCornerX box = box.width * (56 / 100) := by
    rw [leftOuterCornerX, rightOuterCornerX, leftEyeCenterX, rightEyeCenterX, eyeSpacing]
    ring
  refine ⟨⟨hspan, ?_, ?_⟩, ?_⟩
  · rw [leftOuterCornerX, leftEyeCenterX, eyeSpacing]; ring
  · rw [rightOuterCornerX, rightEyeCenterX, eyeSpacing]; ring
  · intro hw560
    rw [calculateNormalizedGaze]
    rw [min_eq_left (le_of_lt hlt), max_eq_right (le_of_lt hlt)]
    rw [if_pos (by rw [hspan]; nlinarith)]

/-- Witness for C10 at the unit box (width 1 > 1/560), iris at the left
corner. -/
theorem outerCorner_span_and_no_degenerate_witness :
    (rightOuterCornerX ⟨0, 0, 1, 1⟩ - leftOuterCornerX ⟨0, 0, 1, 1⟩ = 1 * (56 / 100) ∧
     leftOuterCornerX ⟨0, 0, 1, 1⟩ = 0 + 1 * (22 / 100) ∧
     rightOuterCornerX ⟨0, 0, 1, 1⟩ = 0 + 1 * (78 / 100)) ∧
    (calculateNormalizedGaze 0 (leftOuterCornerX ⟨0, 0, 1, 1⟩)
        (rightOuterCornerX ⟨0, 0, 1, 1⟩) 1).normalizedGazeX =
      max (-1) (min 1 (2 * ((0 - leftOuterCornerX ⟨0, 0, 1, 1⟩) /
        (rightOuterCornerX ⟨0, 0, 1, 1⟩ - leftOuterCornerX ⟨0, 0, 1, 1⟩)) - 1)) :=
  ⟨(outerCorner_span_and_no_degenerate ⟨0, 0, 1, 1⟩ 0 1 (by norm_num)).1,
   (outerCorner_span_and_no_degenerate ⟨0, 0, 1, 1⟩ 0 1 (by norm_num)).2 (by norm_num)⟩

end GazeTracker
